import Mathlib

/-!
Shallow embedding of `src/server.py` from the api-mcp-server repository.

The server consists of one request gateway (`make_senso_request`) and ten
tool handlers. Each handler validates its arguments, builds a request, calls
the gateway at most once, and formats the gateway outcome into a plain
string. We model JSON values, Python truthiness, `dict.get`, `str()`,
iteration, slicing and `len` explicitly; Python exceptions raised inside a
handler body are modelled as `Except.error` values carrying the message, and
the `try/except` wrapper of each handler maps them to the failure string.
-/

set_option autoImplicit false

namespace SensoServer

/-- JSON values, as produced by `response.json()` in the source. -/
inductive Json where
  | null
  | bool (b : Bool)
  | num (n : Int)
  | str (s : String)
  | arr (xs : List Json)
  | obj (fields : List (String × Json))
  deriving Repr

/-- The Python type name of a parsed-JSON value, used in exception messages. -/
def pyTypeName : Json → String
  | .null => "NoneType"
  | .bool _ => "bool"
  | .num _ => "int"
  | .str _ => "str"
  | .arr _ => "list"
  | .obj _ => "dict"

mutual

/-- Python `repr` of a parsed-JSON value (string escaping not modelled; no
formatted value in the source contains characters needing escapes). -/
def pyRepr : Json → String
  | .null => "None"
  | .bool true => "True"
  | .bool false => "False"
  | .num n => toString n
  | .str s => "\x27" ++ s ++ "\x27"
  | .arr xs => "[" ++ pyReprList xs ++ "]"
  | .obj fs => "\x7b" ++ pyReprObj fs ++ "\x7d"

/-- Comma-separated `repr` of list elements. -/
def pyReprList : List Json → String
  | [] => ""
  | [x] => pyRepr x
  | x :: xs => pyRepr x ++ ", " ++ pyReprList xs

/-- Comma-separated `repr` of dict entries. -/
def pyReprObj : List (String × Json) → String
  | [] => ""
  | [(k, v)] => "\x27" ++ k ++ "\x27: " ++ pyRepr v
  | (k, v) :: fs => "\x27" ++ k ++ "\x27: " ++ pyRepr v ++ ", " ++ pyReprObj fs

end

/-- Python `str` of a parsed-JSON value, as used by f-string interpolation. -/
def pyStr : Json → String
  | .str s => s
  | j => pyRepr j

/-- Python truthiness of a parsed-JSON value. -/
def pyTruthy : Json → Bool
  | .null => false
  | .bool b => b
  | .num n => n != 0
  | .str s => !s.isEmpty
  | .arr xs => !xs.isEmpty
  | .obj fs => !fs.isEmpty

/-- Python truthiness of an optional string argument (`None` and the empty
string are falsy); handlers test `if not x:` on such arguments. -/
def pyTruthyStr : Option String → Bool
  | none => false
  | some s => !s.isEmpty

/-- Lookup in a JSON object field list (Python `dict` access; keys built by
the source are unique, so first-match lookup coincides with dict lookup). -/
def jget : List (String × Json) → String → Option Json
  | [], _ => none
  | (k, v) :: fs, key => if k == key then some v else jget fs key

/-- Python `dict.get(key, default)`. -/
def jgetD (fs : List (String × Json)) (key : String) (dflt : Json) : Json :=
  (jget fs key).getD dflt

/-- Python attribute access `x.get`: only dicts have it; anything else raises
`AttributeError`. -/
def asObj : Json → Except String (List (String × Json))
  | .obj fs => .ok fs
  | j => .error ("AttributeError: \x27" ++ pyTypeName j ++ "\x27 object has no attribute \x27get\x27")

/-- Python iteration `for x in j`: lists yield elements, strings yield
one-character strings, dicts yield their keys; other values raise. -/
def pyIter : Json → Except String (List Json)
  | .arr xs => .ok xs
  | .str s => .ok (s.data.map (fun c => Json.str (String.mk [c])))
  | .obj fs => .ok (fs.map (fun kv => Json.str kv.1))
  | j => .error ("TypeError: \x27" ++ pyTypeName j ++ "\x27 object is not iterable")

/-- Python `len`. -/
def pyLen : Json → Except String Nat
  | .arr xs => .ok xs.length
  | .str s => .ok s.length
  | .obj fs => .ok fs.length
  | j => .error ("TypeError: object of type \x27" ++ pyTypeName j ++ "\x27 has no len()")

/-- Python slicing `j[:n]`: defined for strings and lists, raises otherwise. -/
def pySlice (n : Nat) : Json → Except String Json
  | .str s => .ok (.str (s.take n))
  | .arr xs => .ok (.arr (xs.take n))
  | j => .error ("TypeError: \x27" ++ pyTypeName j ++ "\x27 object is not subscriptable")

/-- What the network does for the single HTTP request a gateway call issues:
either a response (status, `response.json()` parse result, and the string
rendering of the `HTTPStatusError` raised by `raise_for_status` for non-2xx
statuses, i.e. the raw status/response text), or a transport failure whose
exception renders as `msg`. -/
inductive HttpOutcome where
  | response (status : Nat) (body : Except String Json) (text : String)
  | transportError (msg : String)

/-- Python `str.lower`, characterwise (method strings are ASCII, where this
coincides with Python). -/
def pyLower (s : String) : String :=
  String.mk (s.data.map Char.toLower)

/-- The method dispatch chain of `make_senso_request`: `method.lower()` must
be one of the five supported verbs for a request to be issued. -/
def supportedMethod (method : String) : Bool :=
  ["get", "post", "put", "patch", "delete"].contains (pyLower method)

/-- `response.is_success`: status in the 2xx range (`raise_for_status` raises
for everything else). -/
def is2xx (status : Nat) : Bool :=
  200 ≤ status && status < 300

/-- `make_senso_request` from `src/server.py`. Returns the gateway result
(`Except.error` carries the message of the exception the source raises)
paired with whether an HTTP request was issued. An unsupported method raises
`ValueError` inside the `try`, which the generic `except` rewraps as
`Request failed: ...` without any request being issued. For an issued
request: transport errors and JSON-decode errors of 2xx bodies are rewrapped
as `Request failed: ...`; a non-2xx status becomes `API Error: ...`, using
the structured `error` field of the body when the body parses to a dict
containing one, and the raw status/response text otherwise (a non-dict body
makes the inner `error_detail.get` raise, which the inner `except` turns
into `str(e)` as well). -/
def make_senso_request (method endpoint : String)
    (params json_data : List (String × Json)) (outcome : HttpOutcome) :
    Except String Json × Bool :=
  if supportedMethod method then
    (match outcome with
      | .transportError msg => .error ("Request failed: " ++ msg)
      | .response status body text =>
        if is2xx status then
          match body with
          | .ok j => .ok j
          | .error m => .error ("Request failed: " ++ m)
        else
          match body with
          | .ok (.obj fs) => .error ("API Error: " ++ pyStr (jgetD fs "error" (.str text)))
          | _ => .error ("API Error: " ++ text), true)
  else
    (.error ("Request failed: Unsupported HTTP method: " ++ method), false)

/-- A single handler invocation, after argument validation: either the
handler returned without calling the gateway, or it calls the gateway once
with the given method, endpoint, query params and JSON body, and formats the
gateway result with `k`. -/
inductive HandlerRun where
  | noCall (result : String)
  | oneCall (method endpoint : String) (params json_data : List (String × Json))
      (k : Except String Json → String)

/-- The `try/except` wrapper shared by every handler body: formatting
exceptions and gateway exceptions alike become `catchMsg ++ e`. -/
def runReq (catchMsg : String) (fmt : Json → Except String String)
    (r : Except String Json) : String :=
  match r.bind fmt with
  | .ok s => s
  | .error e => catchMsg ++ e

/-- Success formatting of `add_raw_content`. -/
def add_raw_content_success (j : Json) : Except String String := do
  let fs ← asObj j
  .ok ("Content successfully added with ID: " ++ pyStr (jgetD fs "id" (.str "unknown")) ++
       "\nTitle: " ++ pyStr (jgetD fs "title" (.str "Untitled")))

/-- The `add_raw_content` tool handler. -/
def add_raw_content (title summary text : Option String) : HandlerRun :=
  if !pyTruthyStr text then
    .noCall "Error: Content text is required"
  else
    let request_data := [("text", Json.str (text.getD ""))]
    let request_data := if pyTruthyStr title then
        request_data ++ [("title", Json.str (title.getD ""))] else request_data
    let request_data := if pyTruthyStr summary then
        request_data ++ [("summary", Json.str (summary.getD ""))] else request_data
    .oneCall "post" "/content/raw" [] request_data
      (runReq "Failed to add content: " add_raw_content_success)

/-- Formatting of the numbered result blocks in `search_content`. -/
def searchResultsFmt : Nat → List Json → Except String String
  | _, [] => .ok ""
  | i, r :: rs => do
    let fs ← asObj r
    let rest ← searchResultsFmt (i + 1) rs
    .ok ("Result " ++ toString i ++ ":\n" ++
         "Title: " ++ pyStr (jgetD fs "title" (.str "No title")) ++ "\n" ++
         "Content: " ++ pyStr (jgetD fs "chunk_text" (.str "No content")) ++ "\n" ++
         "ID: " ++ pyStr (jgetD fs "content_id" (.str "No ID")) ++ "\n\n" ++ rest)

/-- Success formatting of `search_content`. -/
def search_content_success (query : String) (j : Json) : Except String String := do
  let fs ← asObj j
  let answer := jgetD fs "answer" (.str "No answer generated.")
  let results := jgetD fs "results" (.arr [])
  if !pyTruthy results then
    pure ("No relevant information found for query: \x27" ++ query ++ "\x27.")
  else do
    let n ← pyLen results
    let items ← pyIter results
    let body ← searchResultsFmt 1 items
    .ok ("Answer: " ++ pyStr answer ++ "\n\nFound " ++ toString n ++
         " relevant results for \x27" ++ query ++ "\x27:\n\n" ++ body)

/-- The `search_content` tool handler. -/
def search_content (query : Option String) (max_results : Int) : HandlerRun :=
  if !pyTruthyStr query then
    .noCall "Error: Query is required"
  else
    .oneCall "post" "/search" []
      [("query", Json.str (query.getD "")), ("max_results", Json.num max_results)]
      (runReq "Search failed: " (search_content_success (query.getD "")))

/-- Formatting of the numbered source lines in `generate_content`. -/
def genSourcesFmt : Nat → List Json → Except String String
  | _, [] => .ok ""
  | i, s :: ss => do
    let fs ← asObj s
    let rest ← genSourcesFmt (i + 1) ss
    .ok ("Source " ++ toString i ++ ": " ++ pyStr (jgetD fs "title" (.str "No title")) ++ "\n" ++ rest)

/-- Success formatting of `generate_content`. -/
def generate_content_success (content_type : String) (save : Bool) (j : Json) :
    Except String String := do
  let fs ← asObj j
  let generated_text := jgetD fs "generated_text" (.str "No content generated.")
  let content_id := jgetD fs "content_id" .null
  let sources := jgetD fs "sources" (.arr [])
  let spart ← if pyTruthy sources then do
      let items ← pyIter sources
      let lines ← genSourcesFmt 1 items
      pure ("Sources used for generation:\n" ++ lines)
    else pure ""
  .ok ("Generated content about " ++ content_type ++ ":\n\n" ++ pyStr generated_text ++ "\n\n" ++
       (if pyTruthy content_id && save then
          "Content was saved with ID: " ++ pyStr content_id ++ "\n\n" else "") ++
       spart)

/-- The `generate_content` tool handler. -/
def generate_content (content_type instructions : Option String) (save : Bool)
    (max_results : Int) : HandlerRun :=
  if !pyTruthyStr content_type || !pyTruthyStr instructions then
    .noCall "Error: Content type and instructions are required"
  else
    .oneCall "post" "/generate" []
      [("content_type", Json.str (content_type.getD "")),
       ("instructions", Json.str (instructions.getD "")),
       ("save", Json.bool save),
       ("max_results", Json.num max_results)]
      (runReq "Content generation failed: " (generate_content_success (content_type.getD "") save))

/-- Success formatting of `create_prompt`. -/
def create_prompt_success (j : Json) : Except String String := do
  let fs ← asObj j
  .ok ("Prompt created successfully!\nID: " ++ pyStr (jgetD fs "prompt_id" .null) ++
       "\nName: " ++ pyStr (jgetD fs "name" .null))

/-- The `create_prompt` tool handler. -/
def create_prompt (name text : Option String) : HandlerRun :=
  if !pyTruthyStr name || !pyTruthyStr text then
    .noCall "Error: Name and text are required"
  else
    .oneCall "post" "/prompts" []
      [("name", Json.str (name.getD "")), ("text", Json.str (text.getD ""))]
      (runReq "Failed to create prompt: " create_prompt_success)

/-- Formatting of one prompt entry in `list_prompts`, including the
100-character text truncation. -/
def promptItemFmt (p : Json) : Except String String := do
  let fs ← asObj p
  let t := jgetD fs "text" (.str "")
  let t100 ← pySlice 100 t
  let n ← pyLen t
  .ok ("ID: " ++ pyStr (jgetD fs "prompt_id" .null) ++ "\n" ++
       "Name: " ++ pyStr (jgetD fs "name" .null) ++ "\n" ++
       "Text: " ++ pyStr t100 ++ (if n > 100 then "..." else "") ++ "\n" ++
       "Created: " ++ pyStr (jgetD fs "created_at" (.str "Unknown")) ++ "\n\n")

/-- Concatenated formatting of a list of entries. -/
def listFmt (f : Json → Except String String) : List Json → Except String String
  | [] => .ok ""
  | x :: xs => do
    let h ← f x
    let t ← listFmt f xs
    .ok (h ++ t)

/-- Success formatting of `list_prompts`. -/
def list_prompts_success (j : Json) : Except String String :=
  if !pyTruthy j then
    pure "No prompts found."
  else do
    let n ← pyLen j
    let items ← pyIter j
    let body ← listFmt promptItemFmt items
    .ok ("Prompts (showing " ++ toString n ++ " results):\n\n" ++ body)

/-- The `list_prompts` tool handler; note `min(limit, 100)` in the params. -/
def list_prompts (limit offset : Int) : HandlerRun :=
  .oneCall "get" "/prompts"
    [("limit", Json.num (min limit 100)), ("offset", Json.num offset)] []
    (runReq "Failed to list prompts: " list_prompts_success)

/-- Success formatting of `update_prompt`. -/
def update_prompt_success (j : Json) : Except String String := do
  let fs ← asObj j
  .ok ("Prompt updated successfully!\nID: " ++ pyStr (jgetD fs "prompt_id" .null) ++
       "\nName: " ++ pyStr (jgetD fs "name" .null))

/-- The `update_prompt` tool handler. -/
def update_prompt (prompt_id name text : Option String) : HandlerRun :=
  if !pyTruthyStr prompt_id || !pyTruthyStr name || !pyTruthyStr text then
    .noCall "Error: Prompt ID, name, and text are required"
  else
    .oneCall "put" ("/prompts/" ++ prompt_id.getD "") []
      [("name", Json.str (name.getD "")), ("text", Json.str (text.getD ""))]
      (runReq "Failed to update prompt: " update_prompt_success)

/-- Success formatting of `create_template`. -/
def create_template_success (j : Json) : Except String String := do
  let fs ← asObj j
  .ok ("Template created successfully!\nID: " ++ pyStr (jgetD fs "template_id" .null) ++
       "\nName: " ++ pyStr (jgetD fs "name" .null) ++
       "\nOutput Type: " ++ pyStr (jgetD fs "output_type" .null))

/-- The `create_template` tool handler. -/
def create_template (name text : Option String) (output_type : String) : HandlerRun :=
  if !pyTruthyStr name || !pyTruthyStr text then
    .noCall "Error: Name and text are required"
  else if !(["json", "text"].contains output_type) then
    .noCall "Error: output_type must be \x27json\x27 or \x27text\x27"
  else
    .oneCall "post" "/templates" []
      [("name", Json.str (name.getD "")), ("text", Json.str (text.getD "")),
       ("output_type", Json.str output_type)]
      (runReq "Failed to create template: " create_template_success)

/-- Formatting of one template entry in `list_templates`. -/
def templateItemFmt (p : Json) : Except String String := do
  let fs ← asObj p
  let t := jgetD fs "text" (.str "")
  let t100 ← pySlice 100 t
  let n ← pyLen t
  .ok ("ID: " ++ pyStr (jgetD fs "template_id" .null) ++ "\n" ++
       "Name: " ++ pyStr (jgetD fs "name" .null) ++ "\n" ++
       "Output Type: " ++ pyStr (jgetD fs "output_type" .null) ++ "\n" ++
       "Text: " ++ pyStr t100 ++ (if n > 100 then "..." else "") ++ "\n" ++
       "Created: " ++ pyStr (jgetD fs "created_at" (.str "Unknown")) ++ "\n\n")

/-- Success formatting of `list_templates`. -/
def list_templates_success (j : Json) : Except String String :=
  if !pyTruthy j then
    pure "No templates found."
  else do
    let n ← pyLen j
    let items ← pyIter j
    let body ← listFmt templateItemFmt items
    .ok ("Templates (showing " ++ toString n ++ " results):\n\n" ++ body)

/-- The `list_templates` tool handler; note `min(limit, 100)` in the params. -/
def list_templates (limit offset : Int) : HandlerRun :=
  .oneCall "get" "/templates"
    [("limit", Json.num (min limit 100)), ("offset", Json.num offset)] []
    (runReq "Failed to list templates: " list_templates_success)

/-- Success formatting of `update_template`. -/
def update_template_success (j : Json) : Except String String := do
  let fs ← asObj j
  .ok ("Template updated successfully!\nID: " ++ pyStr (jgetD fs "template_id" .null) ++
       "\nName: " ++ pyStr (jgetD fs "name" .null))

/-- The `update_template` tool handler. -/
def update_template (template_id name text : Option String) (output_type : String) : HandlerRun :=
  if !pyTruthyStr template_id || !pyTruthyStr name || !pyTruthyStr text then
    .noCall "Error: Template ID, name, and text are required"
  else if !(["json", "text"].contains output_type) then
    .noCall "Error: output_type must be \x27json\x27 or \x27text\x27"
  else
    .oneCall "put" ("/templates/" ++ template_id.getD "") []
      [("name", Json.str (name.getD "")), ("text", Json.str (text.getD "")),
       ("output_type", Json.str output_type)]
      (runReq "Failed to update template: " update_template_success)

/-- Formatting of one source bullet in `generate_with_prompt`. -/
def gwpSourceFmt (s : Json) : Except String String := do
  let fs ← asObj s
  .ok ("- " ++ pyStr (jgetD fs "title" (.str "No title")) ++ "\n")

/-- Success formatting of `generate_with_prompt` (first five sources shown,
then a count of the rest). -/
def generate_with_prompt_success (save : Bool) (j : Json) : Except String String := do
  let fs ← asObj j
  let generated_text := jgetD fs "generated_text" (.str "No content generated.")
  let content_id := jgetD fs "content_id" .null
  let prompt_info := jgetD fs "prompt" (.obj [])
  let template_info := jgetD fs "template" .null
  let sources := jgetD fs "sources" (.arr [])
  let pfs ← asObj prompt_info
  let head := "Generated content using prompt \x27" ++
      pyStr (jgetD pfs "name" (.str "Unknown")) ++ "\x27:\n\n" ++
      pyStr generated_text ++ "\n\n"
  let tpart ← if pyTruthy template_info then do
      let tfs ← asObj template_info
      pure ("Formatted with template: " ++ pyStr (jgetD tfs "name" .null) ++
            " (" ++ pyStr (jgetD tfs "output_type" .null) ++ ")\n\n")
    else pure ""
  let savedPart := if pyTruthy content_id && save then
      "Content was saved with ID: " ++ pyStr content_id ++ "\n\n" else ""
  let spart ← if pyTruthy sources then do
      let n ← pyLen sources
      let firstFive ← pySlice 5 sources
      let items ← pyIter firstFive
      let lines ← listFmt gwpSourceFmt items
      pure ("Sources used (" ++ toString n ++ " total):\n" ++ lines ++
            (if n > 5 then "... and " ++ toString (n - 5) ++ " more sources\n" else ""))
    else pure ""
  .ok (head ++ tpart ++ savedPart ++ spart)

/-- The `generate_with_prompt` tool handler. -/
def generate_with_prompt (prompt_id content_type template_id : Option String)
    (save : Bool) (max_results : Int) : HandlerRun :=
  if !pyTruthyStr prompt_id || !pyTruthyStr content_type then
    .noCall "Error: Prompt ID and content type are required"
  else
    let request_data := [("prompt_id", Json.str (prompt_id.getD "")),
                         ("content_type", Json.str (content_type.getD "")),
                         ("save", Json.bool save),
                         ("max_results", Json.num max_results)]
    let request_data := if pyTruthyStr template_id then
        request_data ++ [("template_id", Json.str (template_id.getD ""))] else request_data
    .oneCall "post" "/generate/prompt" [] request_data
      (runReq "Content generation with prompt failed: " (generate_with_prompt_success save))

/-- One invocation of any of the ten tools, with its arguments. -/
inductive ToolCall where
  | add_raw_content (title summary text : Option String)
  | search_content (query : Option String) (max_results : Int)
  | generate_content (content_type instructions : Option String) (save : Bool) (max_results : Int)
  | create_prompt (name text : Option String)
  | list_prompts (limit offset : Int)
  | update_prompt (prompt_id name text : Option String)
  | create_template (name text : Option String) (output_type : String)
  | list_templates (limit offset : Int)
  | update_template (template_id name text : Option String) (output_type : String)
  | generate_with_prompt (prompt_id content_type template_id : Option String)
      (save : Bool) (max_results : Int)

/-- Dispatch a tool call to its handler. -/
def dispatch : ToolCall → HandlerRun
  | .add_raw_content title summary text => add_raw_content title summary text
  | .search_content query max_results => search_content query max_results
  | .generate_content ct ins save mr => generate_content ct ins save mr
  | .create_prompt name text => create_prompt name text
  | .list_prompts limit offset => list_prompts limit offset
  | .update_prompt pid name text => update_prompt pid name text
  | .create_template name text ot => create_template name text ot
  | .list_templates limit offset => list_templates limit offset
  | .update_template tid name text ot => update_template tid name text ot
  | .generate_with_prompt pid ct tid save mr => generate_with_prompt pid ct tid save mr

/-- Run a handler invocation against a given gateway result. -/
def HandlerRun.run : HandlerRun → Except String Json → String
  | .noCall s, _ => s
  | .oneCall _ _ _ _ k, r => k r

/-- Run a tool call against a given gateway result. -/
def runTool (c : ToolCall) (r : Except String Json) : String :=
  (dispatch c).run r

/-- Run a tool call end to end: the handler passes its request to
`make_senso_request`, whose single HTTP attempt behaves as `net` says. -/
def runToolHttp (c : ToolCall) (net : HttpOutcome) : String :=
  match dispatch c with
  | .noCall s => s
  | .oneCall m ep ps jd k => k (make_senso_request m ep ps jd net).1

/-- The value a tool call places under `key` in its outgoing request (query
params and JSON body searched in that order), if it issues a request. -/
def outgoingField (c : ToolCall) (key : String) : Option Json :=
  match dispatch c with
  | .noCall _ => none
  | .oneCall _ _ params json_data _ =>
    match jget params key with
    | some v => some v
    | none => jget json_data key

/-- Whether the tool call reaches the gateway. -/
def isCall (c : ToolCall) : Bool :=
  match dispatch c with
  | .noCall _ => false
  | .oneCall _ _ _ _ _ => true

/-- The validation condition each handler checks first: some required field
of the call is missing or empty (list operations have no required fields). -/
def requiredFieldMissing : ToolCall → Bool
  | .add_raw_content _ _ text => !pyTruthyStr text
  | .search_content query _ => !pyTruthyStr query
  | .generate_content ct ins _ _ => !pyTruthyStr ct || !pyTruthyStr ins
  | .create_prompt name text => !pyTruthyStr name || !pyTruthyStr text
  | .list_prompts _ _ => false
  | .update_prompt pid name text => !pyTruthyStr pid || !pyTruthyStr name || !pyTruthyStr text
  | .create_template name text _ => !pyTruthyStr name || !pyTruthyStr text
  | .list_templates _ _ => false
  | .update_template tid name text _ => !pyTruthyStr tid || !pyTruthyStr name || !pyTruthyStr text
  | .generate_with_prompt pid ct _ _ _ => !pyTruthyStr pid || !pyTruthyStr ct

/-- The failure-message head each handler uses in its `except` clause. -/
def failMsg : ToolCall → String
  | .add_raw_content .. => "Failed to add content: "
  | .search_content .. => "Search failed: "
  | .generate_content .. => "Content generation failed: "
  | .create_prompt .. => "Failed to create prompt: "
  | .list_prompts .. => "Failed to list prompts: "
  | .update_prompt .. => "Failed to update prompt: "
  | .create_template .. => "Failed to create template: "
  | .list_templates .. => "Failed to list templates: "
  | .update_template .. => "Failed to update template: "
  | .generate_with_prompt .. => "Content generation with prompt failed: "

/-- A gateway body from which no structured error field can be parsed: the
body failed to parse, parsed to a non-dict, or parsed to a dict without an
`error` key. -/
def noStructError : Except String Json → Bool
  | .ok (.obj fs) => (jget fs "error").isNone
  | .ok _ => true
  | .error _ => true

/-- The mocked gateway success response of the end-to-end search scenario. -/
def c9_mock : Except String Json :=
  .ok (.obj [("answer", .str "..."),
             ("results", .arr [.obj [("title", .str "T"), ("chunk_text", .str "C"),
                                     ("content_id", .str "42")]])])

/-- If a tool call short-circuits before the gateway, its result is that
string for every gateway outcome. -/
theorem runTool_noCall {c : ToolCall} {v : String}
    (h : dispatch c = .noCall v) : ∀ r, runTool c r = v := by
  intro r
  simp [runTool, h, HandlerRun.run]

/-- Every handler that reaches the gateway does so with one of the five
supported HTTP methods. -/
theorem dispatch_method_supported (c : ToolCall) (m ep : String)
    (p jd : List (String × Json)) (k : Except String Json → String)
    (h : dispatch c = .oneCall m ep p jd k) : supportedMethod m = true := by
  cases c <;>
    simp only [dispatch, add_raw_content, search_content, generate_content, create_prompt,
      list_prompts, update_prompt, create_template, list_templates, update_template,
      generate_with_prompt] at h <;>
    (repeat' split at h) <;>
    first
      | exact HandlerRun.noConfusion h
      | (injection h with hm hep hp hjd hk; subst hm; decide)

/-- Every handler formats a gateway error `e` as its own failure-message
head followed by `e`. -/
theorem dispatch_error_fmt (c : ToolCall) (m ep : String)
    (p jd : List (String × Json)) (k : Except String Json → String)
    (h : dispatch c = .oneCall m ep p jd k) :
    ∀ e, k (.error e) = failMsg c ++ e := by
  cases c <;>
    simp only [dispatch, add_raw_content, search_content, generate_content, create_prompt,
      list_prompts, update_prompt, create_template, list_templates, update_template,
      generate_with_prompt] at h <;>
    (repeat' split at h) <;>
    first
      | exact HandlerRun.noConfusion h
      | (injection h with hm hep hp hjd hk; intro e; rw [← hk]; rfl)

/-- C5: the list operations clamp the outgoing limit query parameter to
min(limit, 100) for every input, and in particular limit = 500 is sent
as 100. -/
theorem c5_list_limit_clamped (limit offset : Int) :
    outgoingField (.list_prompts limit offset) "limit" = some (.num (min limit 100)) ∧
    outgoingField (.list_templates limit offset) "limit" = some (.num (min limit 100)) ∧
    outgoingField (.list_prompts 500 0) "limit" = some (.num 100) ∧
    outgoingField (.list_templates 500 0) "limit" = some (.num 100) :=
  ⟨rfl, rfl, rfl, rfl⟩

/-- C4 (amended): only the list operations clamp their numeric parameter;
the max_results parameter of search_content, generate_content and
generate_with_prompt is placed in the outgoing request unchanged. -/
theorem c4_clamp_only_on_list_ops (limit offset max_results : Int) (save : Bool) :
    outgoingField (.list_prompts limit offset) "limit" = some (.num (min limit 100)) ∧
    outgoingField (.list_templates limit offset) "limit" = some (.num (min limit 100)) ∧
    outgoingField (.search_content (some "q") max_results) "max_results" =
      some (.num max_results) ∧
    outgoingField (.generate_content (some "report") (some "do it") save max_results)
      "max_results" = some (.num max_results) ∧
    outgoingField (.generate_with_prompt (some "p1") (some "report") none save max_results)
      "max_results" = some (.num max_results) :=
  ⟨rfl, rfl, rfl, rfl, rfl⟩

/-- C4 (counterexample): search_content called with max_results = 101 sends
101 unchanged, exceeding 100, the only documented maximum; the same holds
for generate_with_prompt. -/
theorem c4_counterexample :
    outgoingField (.search_content (some "q") 101) "max_results" = some (.num 101) ∧
    outgoingField (.generate_with_prompt (some "p1") (some "report") none false 101)
      "max_results" = some (.num 101) ∧
    ¬((101 : Int) ≤ 100) :=
  ⟨rfl, rfl, by decide⟩

/-- C6: a gateway call with a method outside GET, POST, PUT, PATCH, DELETE
(case-insensitively) returns the configuration-error message and issues no
HTTP request, for every endpoint, params, body and network behavior. -/
theorem c6_unsupported_method_no_request (method : String)
    (h : supportedMethod method = false) (ep : String)
    (params json_data : List (String × Json)) (outcome : HttpOutcome) :
    make_senso_request method ep params json_data outcome =
      (.error ("Request failed: Unsupported HTTP method: " ++ method), false) := by
  simp [make_senso_request, h]

/-- Witness for C6 at the concrete method TRACE. -/
theorem c6_witness :
    supportedMethod "TRACE" = false ∧
    make_senso_request "TRACE" "/content/raw" [] [] (.transportError "boom") =
      (.error ("Request failed: Unsupported HTTP method: " ++ "TRACE"), false) :=
  ⟨by decide,
   c6_unsupported_method_no_request "TRACE" (by decide) "/content/raw" [] []
     (.transportError "boom")⟩

/-- C7: for add_raw_content with non-empty text, an absent or empty title
(resp. summary) leaves the outgoing payload without a title (resp. summary)
key, while the text key is always present. -/
theorem c7_optional_fields_omitted (title summary text : Option String)
    (h : pyTruthyStr text = true) :
    (pyTruthyStr title = false →
       outgoingField (.add_raw_content title summary text) "title" = none) ∧
    (pyTruthyStr summary = false →
       outgoingField (.add_raw_content title summary text) "summary" = none) ∧
    outgoingField (.add_raw_content title summary text) "text" =
      some (.str (text.getD "")) := by
  refine ⟨fun ht => ?_, fun hs => ?_, ?_⟩
  · by_cases hs : pyTruthyStr summary <;>
      simp [outgoingField, dispatch, add_raw_content, h, ht, hs, jget]
  · by_cases ht : pyTruthyStr title <;>
      simp [outgoingField, dispatch, add_raw_content, h, ht, hs, jget]
  · by_cases ht : pyTruthyStr title <;> by_cases hs : pyTruthyStr summary <;>
      simp [outgoingField, dispatch, add_raw_content, h, ht, hs, jget]

/-- Witness for C7: a call with text only omits both optional keys. -/
theorem c7_witness :
    pyTruthyStr (some "hello") = true ∧
    pyTruthyStr (none : Option String) = false ∧
    outgoingField (.add_raw_content none none (some "hello")) "title" = none ∧
    outgoingField (.add_raw_content none none (some "hello")) "summary" = none ∧
    outgoingField (.add_raw_content none none (some "hello")) "text" =
      some (.str "hello") :=
  ⟨by decide, by decide,
   (c7_optional_fields_omitted none none (some "hello") (by decide)).1 (by decide),
   (c7_optional_fields_omitted none none (some "hello") (by decide)).2.1 (by decide),
   (c7_optional_fields_omitted none none (some "hello") (by decide)).2.2⟩

/-- C9: the end-to-end search scenario output contains the answer line, the
result count, the result title and its content id, and max_results = 3 is
sent. -/
theorem c9_search_end_to_end :
    (∃ a b, runTool (.search_content (some "refund policy") 3) c9_mock =
       a ++ "Answer: ..." ++ b) ∧
    (∃ a b, runTool (.search_content (some "refund policy") 3) c9_mock =
       a ++ "Found 1 relevant results" ++ b) ∧
    (∃ a b, runTool (.search_content (some "refund policy") 3) c9_mock =
       a ++ "Title: T" ++ b) ∧
    (∃ a b, runTool (.search_content (some "refund policy") 3) c9_mock =
       a ++ "ID: 42" ++ b) ∧
    outgoingField (.search_content (some "refund policy") 3) "max_results" =
      some (.num 3) :=
  ⟨⟨"", "\n\nFound 1 relevant results for \x27refund policy\x27:\n\nResult 1:\nTitle: T\nContent: C\nID: 42\n\n", by rfl⟩,
   ⟨"Answer: ...\n\n", " for \x27refund policy\x27:\n\nResult 1:\nTitle: T\nContent: C\nID: 42\n\n", by rfl⟩,
   ⟨"Answer: ...\n\nFound 1 relevant results for \x27refund policy\x27:\n\nResult 1:\n", "\nContent: C\nID: 42\n\n", by rfl⟩,
   ⟨"Answer: ...\n\nFound 1 relevant results for \x27refund policy\x27:\n\nResult 1:\nTitle: T\nContent: C\n", "\n\n", by rfl⟩,
   rfl⟩

/-- C10: when the success response has an empty or absent results list, the
handler returns exactly the no-results sentence, whatever the answer field
holds. -/
theorem c10_empty_results (query : Option String) (max_results : Int)
    (fs : List (String × Json))
    (hq : pyTruthyStr query = true)
    (hres : jget fs "results" = none ∨ jget fs "results" = some (Json.arr [])) :
    runTool (.search_content query max_results) (.ok (.obj fs)) =
      "No relevant information found for query: \x27" ++ query.getD "" ++ "\x27." := by
  have hr : jgetD fs "results" (.arr []) = .arr [] := by
    rcases hres with h | h <;> simp [jgetD, h]
  simp [runTool, dispatch, search_content, hq, HandlerRun.run, runReq,
    search_content_success, asObj, hr, pyTruthy, Except.instMonad, Except.bind,
    Except.pure]

/-- Witness for C10: a response carrying a non-empty answer but an empty
results list yields exactly the no-results sentence. -/
theorem c10_witness :
    pyTruthyStr (some "refunds") = true ∧
    (jget [("answer", Json.str "Some answer."), ("results", Json.arr [])] "results" = none ∨
     jget [("answer", Json.str "Some answer."), ("results", Json.arr [])] "results" =
       some (Json.arr [])) ∧
    runTool (.search_content (some "refunds") 5)
      (.ok (.obj [("answer", Json.str "Some answer."), ("results", Json.arr [])])) =
      "No relevant information found for query: \x27" ++ "refunds" ++ "\x27." :=
  ⟨by decide, Or.inr rfl,
   c10_empty_results (some "refunds") 5
     [("answer", Json.str "Some answer."), ("results", Json.arr [])]
     (by decide) (Or.inr rfl)⟩

/-- C1: for every tool call, every gateway result and every network
behavior, the handler yields a string; a gateway error e never escapes, it
is rendered either as the validation short-circuit string or as the failure
head of that handler followed by e. -/
theorem c1_handlers_always_return_strings (c : ToolCall) (r : Except String Json)
    (net : HttpOutcome) :
    (∃ s : String, runTool c r = s) ∧
    (∃ s : String, runToolHttp c net = s) ∧
    (∀ e : String,
       (∃ v, dispatch c = .noCall v ∧ runTool c (.error e) = v) ∨
       runTool c (.error e) = failMsg c ++ e) := by
  refine ⟨⟨_, rfl⟩, ⟨_, rfl⟩, fun e => ?_⟩
  cases hd : dispatch c with
  | noCall v => exact .inl ⟨v, rfl, runTool_noCall hd _⟩
  | oneCall m ep p jd k =>
    right
    have hk := dispatch_error_fmt c m ep p jd k hd
    simp only [runTool, hd, HandlerRun.run]
    exact hk e

/-- C2: a tool call with a missing or empty required field short-circuits to
a validation-error string before the gateway: the dispatch is a noCall whose
string starts with Error:, returned identically for every gateway outcome. -/
theorem c2_validation_short_circuits (c : ToolCall)
    (h : requiredFieldMissing c = true) :
    ∃ v, dispatch c = .noCall v ∧ (∃ rest, v = "Error:" ++ rest) ∧
      ∀ r, runTool c r = v := by
  cases c with
  | add_raw_content title summary text =>
    simp only [requiredFieldMissing] at h
    have hd : dispatch (.add_raw_content title summary text) =
        .noCall "Error: Content text is required" := by
      simp only [dispatch, add_raw_content]
      rw [if_pos h]
    exact ⟨_, hd, ⟨" Content text is required", rfl⟩, runTool_noCall hd⟩
  | search_content query max_results =>
    simp only [requiredFieldMissing] at h
    have hd : dispatch (.search_content query max_results) =
        .noCall "Error: Query is required" := by
      simp only [dispatch, search_content]
      rw [if_pos h]
    exact ⟨_, hd, ⟨" Query is required", rfl⟩, runTool_noCall hd⟩
  | generate_content ct ins save mr =>
    simp only [requiredFieldMissing] at h
    have hd : dispatch (.generate_content ct ins save mr) =
        .noCall "Error: Content type and instructions are required" := by
      simp only [dispatch, generate_content]
      rw [if_pos h]
    exact ⟨_, hd, ⟨" Content type and instructions are required", rfl⟩, runTool_noCall hd⟩
  | create_prompt name text =>
    simp only [requiredFieldMissing] at h
    have hd : dispatch (.create_prompt name text) =
        .noCall "Error: Name and text are required" := by
      simp only [dispatch, create_prompt]
      rw [if_pos h]
    exact ⟨_, hd, ⟨" Name and text are required", rfl⟩, runTool_noCall hd⟩
  | list_prompts limit offset =>
    simp only [requiredFieldMissing] at h
    exact absurd h (by decide)
  | update_prompt pid name text =>
    simp only [requiredFieldMissing] at h
    have hd : dispatch (.update_prompt pid name text) =
        .noCall "Error: Prompt ID, name, and text are required" := by
      simp only [dispatch, update_prompt]
      rw [if_pos h]
    exact ⟨_, hd, ⟨" Prompt ID, name, and text are required", rfl⟩, runTool_noCall hd⟩
  | create_template name text ot =>
    simp only [requiredFieldMissing] at h
    have hd : dispatch (.create_template name text ot) =
        .noCall "Error: Name and text are required" := by
      simp only [dispatch, create_template]
      rw [if_pos h]
    exact ⟨_, hd, ⟨" Name and text are required", rfl⟩, runTool_noCall hd⟩
  | list_templates limit offset =>
    simp only [requiredFieldMissing] at h
    exact absurd h (by decide)
  | update_template tid name text ot =>
    simp only [requiredFieldMissing] at h
    have hd : dispatch (.update_template tid name text ot) =
        .noCall "Error: Template ID, name, and text are required" := by
      simp only [dispatch, update_template]
      rw [if_pos h]
    exact ⟨_, hd, ⟨" Template ID, name, and text are required", rfl⟩, runTool_noCall hd⟩
  | generate_with_prompt pid ct tid save mr =>
    simp only [requiredFieldMissing] at h
    have hd : dispatch (.generate_with_prompt pid ct tid save mr) =
        .noCall "Error: Prompt ID and content type are required" := by
      simp only [dispatch, generate_with_prompt]
      rw [if_pos h]
    exact ⟨_, hd, ⟨" Prompt ID and content type are required", rfl⟩, runTool_noCall hd⟩

/-- Witness for C2 at update_prompt with an empty prompt id. -/
theorem c2_witness :
    requiredFieldMissing (.update_prompt (some "") (some "n1") (some "body")) = true ∧
    ∃ v, dispatch (.update_prompt (some "") (some "n1") (some "body")) = .noCall v ∧
      (∃ rest, v = "Error:" ++ rest) ∧
      ∀ r, runTool (.update_prompt (some "") (some "n1") (some "body")) r = v :=
  ⟨by decide, c2_validation_short_circuits _ (by decide)⟩

/-- C3: for every tool call that reaches the gateway and every non-2xx
response, a parsable error field is surfaced verbatim in the failure string,
and without one the raw status/response text is surfaced; in both cases the
result is the handler failure string itself. -/
theorem c3_remote_errors_surfaced (c : ToolCall) (status : Nat) (text : String)
    (hcall : isCall c = true) (hs : is2xx status = false) :
    (∀ fs x, jget fs "error" = some (Json.str x) →
       runToolHttp c (.response status (.ok (.obj fs)) text) =
         failMsg c ++ ("API Error: " ++ x)) ∧
    (∀ body, noStructError body = true →
       runToolHttp c (.response status body text) =
         failMsg c ++ ("API Error: " ++ text)) := by
  cases hd : dispatch c with
  | noCall v =>
    simp only [isCall, hd] at hcall
    exact absurd hcall Bool.false_ne_true
  | oneCall m ep p jd k =>
    have hm := dispatch_method_supported c m ep p jd k hd
    have hk := dispatch_error_fmt c m ep p jd k hd
    constructor
    · intro fs x hx
      have hg : (make_senso_request m ep p jd
          (.response status (.ok (.obj fs)) text)).1 = .error ("API Error: " ++ x) := by
        simp [make_senso_request, hm, hs, jgetD, hx, pyStr]
      simp only [runToolHttp, hd]
      rw [hg, hk]
    · intro body hb
      have hg : (make_senso_request m ep p jd (.response status body text)).1 =
          .error ("API Error: " ++ text) := by
        match body with
        | .error msg => simp [make_senso_request, hm, hs]
        | .ok (.obj fs) =>
          simp only [noStructError, Option.isNone_iff_eq_none] at hb
          simp [make_senso_request, hm, hs, jgetD, hb, pyStr]
        | .ok .null | .ok (.bool _) | .ok (.num _) | .ok (.str _) | .ok (.arr _) =>
          simp [make_senso_request, hm, hs]
      simp only [runToolHttp, hd]
      rw [hg, hk]

/-- Witness for C3 at search_content, status 404, with and without a
structured error field. -/
theorem c3_witness :
    isCall (.search_content (some "refund policy") 5) = true ∧
    is2xx 404 = false ∧
    jget [("error", Json.str "X")] "error" = some (Json.str "X") ∧
    runToolHttp (.search_content (some "refund policy") 5)
      (.response 404 (.ok (.obj [("error", Json.str "X")])) "Client error 404") =
      failMsg (.search_content (some "refund policy") 5) ++ ("API Error: " ++ "X") ∧
    noStructError (.ok (Json.str "not a dict")) = true ∧
    runToolHttp (.search_content (some "refund policy") 5)
      (.response 404 (.ok (Json.str "not a dict")) "Client error 404") =
      failMsg (.search_content (some "refund policy") 5) ++
        ("API Error: " ++ "Client error 404") :=
  ⟨by decide, by decide, rfl,
   (c3_remote_errors_surfaced (.search_content (some "refund policy") 5) 404
      "Client error 404" (by decide) (by decide)).1 [("error", Json.str "X")] "X" rfl,
   rfl,
   (c3_remote_errors_surfaced (.search_content (some "refund policy") 5) 404
      "Client error 404" (by decide) (by decide)).2 (.ok (Json.str "not a dict")) rfl⟩

/-- C8 (counterexample): with an empty name and an output_type outside the
legal values, create_template returns the required-fields error, not the
output_type error the claim states. -/
theorem c8_counterexample :
    (["json", "text"].contains "xml") = false ∧
    runTool (.create_template (some "") (some "body") "xml") (.ok .null) =
      "Error: Name and text are required" ∧
    "Error: Name and text are required" ≠
      "Error: output_type must be \x27json\x27 or \x27text\x27" :=
  ⟨by decide, rfl, by decide⟩

/-- C8 (amended): when name and text (and the template id) are non-empty, an
output_type outside json/text makes create_template and update_template
return the output_type validation error; and whatever the other arguments
are, an invalid output_type never reaches the gateway. -/
theorem c8_output_type_validation (name text template_id : Option String)
    (output_type : String)
    (hn : pyTruthyStr name = true) (ht : pyTruthyStr text = true)
    (hid : pyTruthyStr template_id = true)
    (ho : (["json", "text"].contains output_type) = false) :
    dispatch (.create_template name text output_type) =
      .noCall "Error: output_type must be \x27json\x27 or \x27text\x27" ∧
    dispatch (.update_template template_id name text output_type) =
      .noCall "Error: output_type must be \x27json\x27 or \x27text\x27" ∧
    (∀ n t, isCall (.create_template n t output_type) = false) ∧
    (∀ tid n t, isCall (.update_template tid n t output_type) = false) := by
  have hot : (!(["json", "text"].contains output_type)) = true := by
    rw [ho]
    rfl
  refine ⟨?_, ?_, ?_, ?_⟩
  · have hreq : ¬((!pyTruthyStr name || !pyTruthyStr text) = true) := by
      simp [hn, ht]
    simp only [dispatch, create_template]
    rw [if_neg hreq, if_pos hot]
  · have hreq : ¬((!pyTruthyStr template_id || !pyTruthyStr name || !pyTruthyStr text) = true) := by
      simp [hn, ht, hid]
    simp only [dispatch, update_template]
    rw [if_neg hreq, if_pos hot]
  · intro n t
    simp only [isCall, dispatch, create_template]
    by_cases hreq : (!pyTruthyStr n || !pyTruthyStr t) = true
    · rw [if_pos hreq]
    · rw [if_neg hreq, if_pos hot]
  · intro tid n t
    simp only [isCall, dispatch, update_template]
    by_cases hreq : (!pyTruthyStr tid || !pyTruthyStr n || !pyTruthyStr t) = true
    · rw [if_pos hreq]
    · rw [if_neg hreq, if_pos hot]

/-- Witness for C8 (amended) at output_type xml. -/
theorem c8_witness :
    pyTruthyStr (some "n1") = true ∧ pyTruthyStr (some "body") = true ∧
    pyTruthyStr (some "tmpl-1") = true ∧
    (["json", "text"].contains "xml") = false ∧
    (dispatch (.create_template (some "n1") (some "body") "xml") =
       .noCall "Error: output_type must be \x27json\x27 or \x27text\x27" ∧
     dispatch (.update_template (some "tmpl-1") (some "n1") (some "body") "xml") =
       .noCall "Error: output_type must be \x27json\x27 or \x27text\x27" ∧
     (∀ n t, isCall (.create_template n t "xml") = false) ∧
     (∀ tid n t, isCall (.update_template tid n t "xml") = false)) :=
  ⟨by decide, by decide, by decide, by decide,
   c8_output_type_validation (some "n1") (some "body") (some "tmpl-1") "xml"
     (by decide) (by decide) (by decide) (by decide)⟩

end SensoServer
